import Mathlib

/-!
Verification of the fraud-detection backend (`backend/fraud_detector.py`,
`backend/transaction_processor.py`, `backend/db_interface.py`,
`backend/api_handlers.py`, `backend/payment_gateways/flutterwave_client.py`).

The Python code is shallowly embedded: numeric values (Python floats whose
uses here stay within exactly representable decimal arithmetic) are modelled
as rationals, dictionaries with known key sets as structures whose field
defaults mirror the `dict.get` defaults, timestamps as natural numbers, and
Python exceptions as `Except` values carrying the exception class.
-/

namespace FDS

/-- The fraud decisions produced by `FraudDetectionEngine._make_decision`. -/
inductive Decision
  | APPROVE
  | REVIEW
  | DECLINE
deriving DecidableEq, Repr

/-- The weighted coefficients (alpha, beta, gamma) of the scoring formula. -/
structure Weights where
  alpha : ℚ
  beta : ℚ
  gamma : ℚ
deriving DecidableEq, Repr

/-- Weights assigned in `FraudDetectionEngine.__init__` (RNN model loaded):
alpha=0.6, beta=0.3, gamma=0.1. -/
def ml_loaded_weights : Weights := ⟨6/10, 3/10, 1/10⟩

/-- Weights assigned in `FraudDetectionEngine._load_rnn_model` when the RNN
model is missing or fails to load: alpha=0.0, beta=0.8, gamma=0.2. -/
def ml_absent_weights : Weights := ⟨0, 8/10, 2/10⟩

/-- `self.fraud_threshold_high = 0.8` (DECLINE threshold). -/
def fraud_threshold_high : ℚ := 8/10

/-- `self.fraud_threshold_medium = 0.5` (REVIEW threshold). -/
def fraud_threshold_medium : ℚ := 1/2

/-- `FraudDetectionEngine._make_decision`. -/
def make_decision (fraud_score : ℚ) : Decision :=
  if fraud_score ≥ fraud_threshold_high then .DECLINE
  else if fraud_score ≥ fraud_threshold_medium then .REVIEW
  else .APPROVE

/-- Step 4 of `FraudDetectionEngine.analyze_transaction`: the weighted
combination `alpha*rnn + beta*rule + gamma*velocity`, then
`final_score = max(0.0, min(1.0, final_score))`. -/
def final_fraud_score (w : Weights) (rnn_score rule_score velocity_score : ℚ) : ℚ :=
  max 0 (min 1 (w.alpha * rnn_score + w.beta * rule_score + w.gamma * velocity_score))

/-! ### Rule engine (`_get_rule_score`, `_evaluate_rule`) -/

/-- The fields of a transaction dictionary that the rule engine reads.
`merchant_id` defaults to the empty string (`transaction.get('merchant_id', '')`)
and `hour` is `timestamp.hour` of the transaction timestamp. -/
structure Txn where
  transaction_id : String := ""
  user_id : Int := 0
  amount : ℚ := 0
  merchant_id : String := ""
  hour : Nat := 0
deriving DecidableEq, Repr

/-- The `rule_logic` JSONB document of a fraud rule; every field mirrors a
`rule_logic.get(...)` access with its source default captured at the read
site (`none` means the key is absent). The `max_transactions` / `time_window`
keys of the seeded `velocity_check` rule are carried but never read by the
rule engine. -/
structure RuleLogic where
  threshold : Option ℚ := none
  amounts : List ℚ := []
  categories : List String := []
  start_hour : Option Nat := none
  end_hour : Option Nat := none
  max_transactions : Option Nat := none
  time_window : Option Nat := none
deriving DecidableEq, Repr

/-- A row of the `fraud_rules` table (`db_interface.FraudRule`). -/
structure FraudRule where
  rule_name : String
  rule_description : String := ""
  rule_logic : RuleLogic := {}
  weight : ℚ
  is_active : Bool := true
deriving DecidableEq, Repr

/-- One entry of a `risk_factors` list (`{'factor': ..., 'weight': ...,
'triggered': ..., 'description'?: ..., 'details'?: ...}`). -/
structure RiskFactor where
  factor : String
  weight : ℚ
  triggered : Bool
  description : Option String := none
  details : Option String := none
deriving DecidableEq, Repr

/-- Whether the character list `needle` occurs as a leading block of `hay`. -/
def listStartsWith : List Char → List Char → Bool
  | _, [] => true
  | [], _ :: _ => false
  | h :: hs, n :: ns => h == n && listStartsWith hs ns

/-- Whether `needle` occurs contiguously anywhere inside `hay`. -/
def listHasSub : List Char → List Char → Bool
  | [], ns => ns.isEmpty
  | h :: t, ns => listStartsWith (h :: t) ns || listHasSub t ns

/-- Python's `needle in hay` substring test on strings. -/
def strHasSub (hay needle : String) : Bool :=
  listHasSub hay.toList needle.toList

/-- Python's `str.lower()` (ASCII-faithful). -/
def strLower (s : String) : String := s.map Char.toLower

/-- `FraudDetectionEngine._evaluate_rule`: dispatch on `rule_name`, returning
`(rule_triggered, rule_contribution)`; every triggering branch returns the
rule's weight and the fall-through returns `(False, 0.0)`. Unknown names
(for example the seeded `velocity_check`) reach the fall-through. -/
def evaluate_rule (tx : Txn) (rule : FraudRule) : Bool × ℚ :=
  let weight := rule.weight
  let amount := tx.amount
  let merchant := strLower tx.merchant_id
  if rule.rule_name = "high_amount" then
    if amount > rule.rule_logic.threshold.getD 500000 then (true, weight) else (false, 0)
  else if rule.rule_name = "round_amount" then
    if amount ∈ rule.rule_logic.amounts then (true, weight) else (false, 0)
  else if rule.rule_name = "very_high_amount" then
    if amount > rule.rule_logic.threshold.getD 1000000 then (true, weight) else (false, 0)
  else if rule.rule_name = "risky_merchant" then
    if rule.rule_logic.categories.any (fun category => strHasSub merchant category) then
      (true, weight)
    else (false, 0)
  else if rule.rule_name = "unusual_time" then
    let start_hour := rule.rule_logic.start_hour.getD 23
    let end_hour := rule.rule_logic.end_hour.getD 6
    let hour := tx.hour
    if start_hour > end_hour then
      if hour ≥ start_hour ∨ hour ≤ end_hour then (true, weight) else (false, 0)
    else
      if start_hour ≤ hour ∧ hour ≤ end_hour then (true, weight) else (false, 0)
  else (false, 0)

/-- The triggered-rule record appended in `_get_rule_score`. -/
def ruleFactor (r : FraudRule) : RiskFactor :=
  { factor := r.rule_name, weight := r.weight, triggered := true,
    description := some r.rule_description }

/-- The loop body of `_get_rule_score`: add the contribution and record the
triggered rule. -/
def rule_score_step (tx : Txn) (acc : ℚ × List RiskFactor) (r : FraudRule) :
    ℚ × List RiskFactor :=
  let e := evaluate_rule tx r
  if e.1 then (acc.1 + e.2, acc.2 ++ [ruleFactor r]) else acc

/-- `FraudDetectionEngine._get_rule_score`: fetch the active rules
(`DatabaseManager.get_active_fraud_rules` filters `is_active`), accumulate
the contributions of the triggered ones, and normalize the total with
`min(total_score, 1.0)`. Returns `(normalized_score, triggered_rules)`. -/
def get_rule_score (tx : Txn) (db_rules : List FraudRule) : ℚ × List RiskFactor :=
  let rules := db_rules.filter (fun r => r.is_active)
  let res := rules.foldl (rule_score_step tx) ((0 : ℚ), ([] : List RiskFactor))
  (min res.1 1, res.2)

/-- Specification-side formulation for comparison: the sum of the weights of
the active rules that trigger on the transaction. -/
def triggered_weight_sum (tx : Txn) (db_rules : List FraudRule) : ℚ :=
  (((db_rules.filter (fun r => r.is_active)).filter
      (fun r => (evaluate_rule tx r).1)).map (fun r => r.weight)).sum

/-- The six rules seeded by `db_interface.init_database` (all active). -/
def default_fraud_rules : List FraudRule :=
  [ { rule_name := "high_amount", rule_description := "High transaction amount rule",
      rule_logic := { threshold := some 500000 }, weight := 6/10 },
    { rule_name := "round_amount", rule_description := "Suspicious round amounts",
      rule_logic := { amounts := [100000, 200000, 500000, 1000000, 2000000] }, weight := 3/10 },
    { rule_name := "very_high_amount", rule_description := "Very high transaction amounts",
      rule_logic := { threshold := some 1000000 }, weight := 5/10 },
    { rule_name := "risky_merchant", rule_description := "Risky merchant categories",
      rule_logic := { categories := ["casino", "gambling", "crypto", "betting"] }, weight := 4/10 },
    { rule_name := "unusual_time", rule_description := "Unusual transaction times",
      rule_logic := { start_hour := some 23, end_hour := some 6 }, weight := 2/10 },
    { rule_name := "velocity_check", rule_description := "Transaction velocity analysis",
      rule_logic := { max_transactions := some 5, time_window := some 300 }, weight := 7/10 } ]

/-! ### Velocity analysis (`_analyze_amount_patterns`) -/

/-- The per-transaction record returned by
`DatabaseManager.get_user_transaction_history` as read by the velocity
analyzers: the `amount` and `timestamp` keys. -/
structure HistTxn where
  amount : ℚ
  timestamp : Nat
deriving DecidableEq, Repr

/-- `FraudDetectionEngine._analyze_amount_patterns`: with fewer than two
recent transactions the contribution is 0; otherwise the mean of the recent
amounts is formed and the ratio `current_amount / avg_recent` is computed
only under the guard `avg_recent > 0`, contributing
`min(abs(ratio - 1) * 0.1, 0.3)` when the ratio is above 5 or below 0.2. -/
def analyze_amount_patterns (recent_transactions : List HistTxn)
    (current_amount : ℚ) : ℚ :=
  if recent_transactions.length < 2 then 0
  else
    let recent_amounts := recent_transactions.map (fun t => t.amount)
    let avg_recent := recent_amounts.sum / (recent_amounts.length : ℚ)
    if avg_recent > 0 then
      let ratio := current_amount / avg_recent
      if ratio > 5 ∨ ratio < 2/10 then min (|ratio - 1| * (1/10)) (3/10)
      else 0
    else 0

/-! ### User risk profile (`update_user_profile`) -/

/-- One entry of the profile's `fraud_history` list. -/
structure HistEntry where
  timestamp : Nat
  fraud_score : ℚ
  decision : Decision
deriving DecidableEq, Repr

/-- The user's `risk_profile` JSONB document. Field defaults mirror the
`current_profile.get(...)` defaults used in `update_user_profile`, so a
default-valued structure models a missing key. -/
structure RiskProfile where
  transaction_count : Nat := 0
  avg_amount : ℚ := 0
  fraud_history : List HistEntry := []
  risk_level : String := ""
  last_transaction : Option Nat := none
deriving DecidableEq, Repr

/-- Python's `l[-n:]`: the last `n` elements of a list. -/
def lastN (l : List α) (n : Nat) : List α := l.drop (l.length - n)

/-- Round-half-to-even to an integer, the rounding mode of Python's
`round`. -/
def roundHalfEven (q : ℚ) : ℤ :=
  let f := ⌊q⌋
  let r := q - f
  if r < 1/2 then f
  else if r > 1/2 then f + 1
  else if f % 2 = 0 then f else f + 1

/-- Python's `round(x, 2)` (decimal model of the float rounding). -/
def round2 (q : ℚ) : ℚ := (roundHalfEven (q * 100) : ℚ) / 100

/-- `FraudDetectionEngine.update_user_profile`, acting on the looked-up
user's profile document (`user.risk_profile or {}`): increment
`transaction_count`; recompute the running mean
`((current_avg * (current_count - 1)) + new_amount) / current_count` (stored
rounded to 2 decimals); append `{timestamp, fraud_score, decision}` to
`fraud_history` and keep only the last 10 entries; set `risk_level` from the
mean of the last 5 fraud scores; set `last_transaction` to now. -/
def update_user_profile (now : Nat) (amount fraud_score : ℚ) (decision : Decision)
    (profile : RiskProfile) : RiskProfile :=
  let current_count := profile.transaction_count + 1
  let new_avg := ((profile.avg_amount * ((current_count : ℚ) - 1)) + amount)
      / (current_count : ℚ)
  let fraud_history := profile.fraud_history ++
      [{ timestamp := now, fraud_score := fraud_score, decision := decision }]
  let recent_scores := (lastN fraud_history 5).map (fun f => f.fraud_score)
  let avg_recent_score := recent_scores.sum / (recent_scores.length : ℚ)
  let risk_level :=
    if avg_recent_score > 7/10 then "high"
    else if avg_recent_score > 4/10 then "medium"
    else "low"
  { transaction_count := current_count,
    avg_amount := round2 new_avg,
    fraud_history := lastN fraud_history 10,
    risk_level := risk_level,
    last_transaction := some now }

/-! ### Transaction validation and intake
(`transaction_processor.TransactionProcessor`) -/

/-- Python exception values by class, as far as the processor distinguishes
them. `ipaddress.ip_address` raises a plain `ValueError` when its argument
parses as neither an IPv4 nor an IPv6 address (CPython handles the internal
`AddressValueError` of each family itself), while the handler in
`validate_transaction` catches only `AddressValueError`. -/
inductive PyErr
  | valueError (msg : String)
  | addressValueError (msg : String)
deriving DecidableEq, Repr

/-- `str(e)` of an exception value. -/
def PyErr.str : PyErr → String
  | .valueError m => m
  | .addressValueError m => m

instance {ε α : Type} [DecidableEq ε] [DecidableEq α] : DecidableEq (Except ε α) :=
  fun x y =>
    match x, y with
    | .ok a, .ok b =>
      if h : a = b then .isTrue (by rw [h])
      else .isFalse (fun he => h (Except.ok.inj he))
    | .error a, .error b =>
      if h : a = b then .isTrue (by rw [h])
      else .isFalse (fun he => h (Except.error.inj he))
    | .ok _, .error _ => .isFalse (fun he => Except.noConfusion he)
    | .error _, .ok _ => .isFalse (fun he => Except.noConfusion he)

/-- Outcome of `validate_transaction` when no exception escapes:
`{'valid': True}` or `{'valid': False, 'error': ...}`. -/
inductive VRes
  | valid
  | invalid (error : String)
deriving DecidableEq, Repr

/-- An incoming transaction dictionary, with `none` for an absent (or
`None`-valued) key. Amount and user id are typed by the values the system
submits (numbers), so the `float`/`int` conversion-failure branches of
`validate_transaction` are outside this model. -/
structure TxInput where
  transaction_id : Option String := none
  amount : Option ℚ := none
  user_id : Option Int := none
  currency : Option String := none
  merchant_id : Option String := none
  ip_address : Option String := none
  email : Option String := none
  hour : Nat := 0
deriving DecidableEq, Repr

/-- Python's `str.upper()` (ASCII-faithful). -/
def strUpper (s : String) : String := s.map Char.toUpper

/-- All-decimal-digit test for a character list. -/
def allDigits (l : List Char) : Bool := l.all (fun c => c.isDigit)

/-- Numeric value of a decimal digit list. -/
def digitsVal (l : List Char) : Nat := l.foldl (fun a c => a * 10 + (c.toNat - 48)) 0

/-- One dotted-quad part: 1 to 3 digits, value at most 255, and (as CPython
rejects since 3.9) no leading zero. -/
def ipv4PartOk (s : String) : Bool :=
  let l := s.toList
  decide (1 ≤ l.length) && decide (l.length ≤ 3) && allDigits l &&
    decide (digitsVal l ≤ 255) &&
    !(decide (l.length > 1) && (l.headD '0' == '0'))

/-- Whether a string parses as a dotted-quad IPv4 address. -/
def isValidIPv4 (s : String) : Bool :=
  let parts := s.splitOn "."
  parts.length == 4 && parts.all ipv4PartOk

/-- The `ValueError` message raised by CPython's `ipaddress.ip_address` on an
unparseable input. -/
def ipValueErrorMsg (s : String) : String :=
  "'" ++ s ++ "' does not appear to be an IPv4 or IPv6 address"

/-- `TransactionProcessor.validate_transaction`, parameterized by the stdlib
predicate `ipParses` (success of `ipaddress.ip_address`; for inputs without a
colon this coincides with `isValidIPv4`). Errors accumulate in source order:
missing required fields (amount, user_id, currency), the amount range
checks, the currency allow-list, the user-id positivity check, the IP check
and the email check, then are joined with '; '. When the IP is present,
non-empty and unparseable, `ip_address` raises `ValueError`; the
`except AddressValueError` clause does not match it, so the exception
propagates out of `validate_transaction`. -/
def validate_transaction (ipParses : String → Bool) (tx : TxInput) :
    Except PyErr VRes :=
  let errors : List String :=
    (if tx.amount.isNone then ["Missing required field: amount"] else []) ++
    (if tx.user_id.isNone then ["Missing required field: user_id"] else []) ++
    (if tx.currency.isNone then ["Missing required field: currency"] else [])
  let amount := tx.amount.getD 0
  let errors := errors ++
    (if amount ≤ 0 then ["Amount must be greater than 0"]
     else if amount > 50000000 then ["Amount exceeds maximum limit"]
     else [])
  let currency := strUpper (tx.currency.getD "")
  let errors := errors ++
    (if currency ∈ ["NGN", "USD", "EUR", "GBP"] then []
     else ["Unsupported currency: " ++ currency])
  let user_id := tx.user_id.getD 0
  let errors := errors ++ (if user_id ≤ 0 then ["Invalid user ID"] else [])
  let ipCheck : Except PyErr Unit :=
    match tx.ip_address with
    | some ip_addr =>
      if ip_addr ≠ "" then
        if ipParses ip_addr then .ok ()
        else .error (.valueError (ipValueErrorMsg ip_addr))
      else .ok ()
    | none => .ok ()
  match ipCheck with
  | .error e => .error e
  | .ok _ =>
    let errors := errors ++
      (match tx.email with
       | some email =>
         if email ≠ "" ∧ ¬ (strHasSub email "@") then ["Invalid email format"] else []
       | none => [])
    if errors ≠ [] then .ok (.invalid (String.intercalate "; " errors))
    else .ok .valid

/-- The result dictionary of `FraudDetectionEngine.analyze_transaction`; the
safe-default error dictionary has no `model_version` or component-score keys
but carries an `error` string. -/
structure FraudResult where
  transaction_id : Option String := none
  fraud_score : ℚ
  decision : Decision
  confidence_level : ℚ
  risk_factors : List RiskFactor
  model_version : Option String := none
  error : Option String := none
deriving DecidableEq, Repr

/-- The single risk factor of the safe default:
`{'factor': 'analysis_error', 'weight': 0.5, 'triggered': True}`. -/
def analysisErrorFactor : RiskFactor :=
  { factor := "analysis_error", weight := 1/2, triggered := true }

/-- The `except Exception` wrapper of `analyze_transaction` (lines 79-145):
the outcome of the try-body is passed in; on any exception the safe default
`{fraud_score: 0.5, decision: REVIEW, confidence_level: 0.0,
risk_factors: [analysis_error], error: str(e)}` is returned. -/
def analyze_caught (tid : Option String) (outcome : Except String FraudResult) :
    FraudResult :=
  match outcome with
  | .ok r => r
  | .error e =>
    { transaction_id := tid, fraud_score := 1/2, decision := .REVIEW,
      confidence_level := 0, risk_factors := [analysisErrorFactor],
      error := some e }

/-- A row of the `transactions` table as `_prepare_transaction` builds it
(fields not read by any claim are omitted). -/
structure StoredTxn where
  transaction_id : String
  user_id : Int
  amount : ℚ
  currency : String
  merchant_id : String
  transaction_status : String
deriving DecidableEq, Repr

/-- A row of the `fraud_assessments` table as built in step 5 of
`receive_transaction`. -/
structure Assessment where
  assessment_id : Nat
  transaction_id : String
  fraud_score : ℚ
  risk_factors : List RiskFactor
  model_version : String
  decision : Decision
  confidence_level : ℚ
deriving DecidableEq, Repr

/-- A row of the `users` table: the id and the `risk_profile` document
(nullable). -/
structure User where
  user_id : Int
  risk_profile : Option RiskProfile := none
deriving DecidableEq, Repr

/-- The persistent store visible to the intake path. Assessment ids are
serial (`length + 1`). -/
structure DBState where
  transactions : List StoredTxn := []
  assessments : List Assessment := []
  users : List User := []
deriving DecidableEq, Repr

/-- `TransactionProcessor._prepare_transaction`: generated id when the
submitted one is missing or empty (the generator's output is the `genId`
parameter), `int`/`float` coercions, currency uppercased with default NGN,
merchant default `'Unknown'`, status `'pending'`. -/
def prepare_transaction (genId : String) (tx : TxInput) : StoredTxn :=
  let transaction_id :=
    match tx.transaction_id with
    | some t => if t = "" then genId else t
    | none => genId
  { transaction_id := transaction_id,
    user_id := tx.user_id.getD 0,
    amount := tx.amount.getD 0,
    currency := strUpper (tx.currency.getD "NGN"),
    merchant_id := tx.merchant_id.getD "Unknown",
    transaction_status := "pending" }

/-- The `status_mapping` of `_update_transaction_status`. -/
def status_mapping (decision : Decision) : String :=
  match decision with
  | .APPROVE => "approved"
  | .DECLINE => "declined"
  | .REVIEW => "under_review"

/-- `_update_transaction_status`: set the stored transaction's status. -/
def update_status_in_db (transaction_id new_status : String) (db : DBState) :
    DBState :=
  { db with transactions :=
      db.transactions.map (fun t =>
        if t.transaction_id = transaction_id
        then { t with transaction_status := new_status } else t) }

/-- The value returned by `TransactionProcessor.receive_transaction`: either
the success response of step 7 or an `{'status': 'error', ...}` dictionary
(from a failed validation or from the blanket `except Exception`). -/
inductive SubmitResponse
  | success (transaction_id : String) (user_id : Int) (amount : ℚ)
      (currency : String) (fraud_analysis : FraudResult) (assessment_id : Nat)
  | error (error : String) (transaction_id : Option String)
deriving DecidableEq, Repr

/-- Whether a response reports `'status': 'success'`. -/
def SubmitResponse.isSuccess : SubmitResponse → Bool
  | .success _ _ _ _ _ _ => true
  | .error _ _ => false

/-- `TransactionProcessor.receive_transaction`: validate (an escaping
exception is caught by the blanket handler and reported as
`{'status': 'error', 'error': str(e)}`), prepare, save the transaction,
analyze (`analysisOutcome` is the outcome of the try-body of
`analyze_transaction`, always converted to a result by its own handler),
save the fraud assessment, update the transaction status from the decision,
and return the success response. No step reads or writes `db.users`: the
pipeline never invokes `update_user_profile`. -/
def receive_transaction (ipParses : String → Bool) (genId : String)
    (analysisOutcome : Except String FraudResult) (tx : TxInput) (db : DBState) :
    SubmitResponse × DBState :=
  match validate_transaction ipParses tx with
  | .error e => (.error e.str tx.transaction_id, db)
  | .ok (.invalid msg) => (.error msg tx.transaction_id, db)
  | .ok .valid =>
    let t := prepare_transaction genId tx
    let db1 := { db with transactions := db.transactions ++ [t] }
    let fraud_result := analyze_caught (some t.transaction_id) analysisOutcome
    let assessment : Assessment :=
      { assessment_id := db1.assessments.length + 1,
        transaction_id := t.transaction_id,
        fraud_score := fraud_result.fraud_score,
        risk_factors := fraud_result.risk_factors,
        model_version := fraud_result.model_version.getD "unknown",
        decision := fraud_result.decision,
        confidence_level := fraud_result.confidence_level }
    let db2 := { db1 with assessments := db1.assessments ++ [assessment] }
    let db3 := update_status_in_db t.transaction_id
        (status_mapping fraud_result.decision) db2
    (.success t.transaction_id t.user_id t.amount t.currency fraud_result
        assessment.assessment_id, db3)

/-! ### Webhook signature verification
(`api_handlers.PaymentGatewayHandler._verify_paystack_signature`,
`payment_gateways/flutterwave_client.FlutterwaveClient.verify_webhook_signature`)

Each comparison primitive is modelled together with its cost: the number of
character positions the comparison examines, which is the observable that
decides whether a compare is constant-time. -/

/-- `hmac.compare_digest` on strings (CPython `_tscmp`): the running result
is accumulated over every position of the expected digest with no early
exit, so the examined-position count is the expected digest's length
regardless of the received value's content. -/
def compare_digest (received expected : List Char) : Bool × Nat :=
  ((received.length == expected.length) &&
    ((received.zip expected).all (fun p => p.1 == p.2)),
   expected.length)

/-- The scanning loop of Python's string `==`: stop at the first differing
position; the cost counts the examined positions. -/
def eqScan : List Char → List Char → Bool × Nat
  | [], [] => (true, 0)
  | [], _ :: _ => (false, 0)
  | _ :: _, [] => (false, 0)
  | a :: as, b :: bs =>
    if a == b then
      let r := eqScan as bs
      (r.1, r.2 + 1)
    else (false, 1)

/-- Python's string `==` (CPython `unicode_compare_eq`): a length check,
then an early-exit scan. -/
def pyStrEq (a b : List Char) : Bool × Nat :=
  if a.length == b.length then eqScan a b else (false, 0)

/-- `PaymentGatewayHandler._verify_paystack_signature`: `False` when the
header or the secret key is missing or falsy; otherwise
`hmac.compare_digest(signature, HMAC_SHA512(secret, payload).hexdigest())`.
The HMAC computation is the function parameter `hmacSha512Hex`. -/
def verify_paystack_signature (hmacSha512Hex : String → String → String)
    (paystack_secret_key : Option String) (payload : String)
    (signature : Option String) : Bool × Nat :=
  match signature, paystack_secret_key with
  | some sig, some key =>
    if sig = "" then (false, 0)
    else if key = "" then (false, 0)
    else compare_digest sig.toList (hmacSha512Hex key payload).toList
  | _, _ => (false, 0)

/-- `FlutterwaveClient.verify_webhook_signature`: `False` when the header or
the configured encryption key is missing or falsy; otherwise the plain
Python `==` between the received signature and the configured
`FLUTTERWAVE_WEBHOOK_HASH` value (a comparison against `None` when the
variable is unset examines no characters). -/
def verify_webhook_signature (flutterwave_webhook_hash : Option String)
    (encryption_key : Option String) (signature : Option String) : Bool × Nat :=
  match signature with
  | none => (false, 0)
  | some sig =>
    if sig = "" then (false, 0)
    else
      match encryption_key with
      | none => (false, 0)
      | some k =>
        if k = "" then (false, 0)
        else
          match flutterwave_webhook_hash with
          | none => (false, 0)
          | some expected => pyStrEq sig.toList expected.toList

/-! ### Concrete fixtures used by closed evaluation theorems -/

/-- The transaction of the high-amount scenario: amount 600000, an ordinary
merchant, daytime hour. -/
def high_amount_tx : Txn :=
  { transaction_id := "TXN_HIGH", user_id := 3, amount := 600000,
    merchant_id := "Luxury Store", hour := 14 }

/-- A plainly valid submission (all required fields present and in range). -/
def sample_valid_tx : TxInput :=
  { amount := some 50000, user_id := some 1, currency := some "NGN",
    merchant_id := some "Coffee Shop" }

/-- A submission that is valid except for an unparseable `ip_address`. -/
def bad_ip_tx : TxInput :=
  { amount := some 1000, user_id := some 1, currency := some "NGN",
    ip_address := some "not-an-ip" }

/-- A store holding the submitting user together with a populated risk
profile. -/
def sample_db : DBState :=
  { users := [{ user_id := 1,
                risk_profile := some { transaction_count := 5, avg_amount := 100,
                                       fraud_history := [], risk_level := "low" } }] }

/-- A normal analysis outcome, used where a claim does not constrain the
scoring result. -/
def ok_result : FraudResult :=
  { transaction_id := some "TXN_GEN", fraud_score := 0, decision := .APPROVE,
    confidence_level := 1/2, risk_factors := [],
    model_version := some "rule_based_v1.0" }

/-! ### Claim theorems -/

/-- Claim C5: for every final score, the engine decision satisfies
DECLINE ⟺ score ≥ 0.8, REVIEW ⟺ 0.5 ≤ score < 0.8, APPROVE ⟺ score < 0.5
(`FraudDetectionEngine._make_decision`). -/
theorem claim_C5_decision_thresholds (s : ℚ) :
    (make_decision s = .DECLINE ↔ 8/10 ≤ s) ∧
    (make_decision s = .REVIEW ↔ 1/2 ≤ s ∧ s < 8/10) ∧
    (make_decision s = .APPROVE ↔ s < 1/2) := by
  unfold make_decision fraud_threshold_high fraud_threshold_medium
  split_ifs with hhi hmed
  · refine ⟨⟨fun _ => hhi, fun _ => rfl⟩, ?_, ?_⟩
    · constructor
      · intro hcon; exact hcon.elim
      · rintro ⟨-, hlt⟩; linarith
    · constructor
      · intro hcon; exact hcon.elim
      · intro hlt; linarith
  · refine ⟨?_, ⟨fun _ => ⟨hmed, lt_of_not_ge hhi⟩, fun _ => rfl⟩, ?_⟩
    · constructor
      · intro hcon; exact hcon.elim
      · intro hge; exact absurd hge hhi
    · constructor
      · intro hcon; exact hcon.elim
      · intro hlt; linarith
  · have hlt : s < 1/2 := lt_of_not_ge hmed
    refine ⟨?_, ?_, ⟨fun _ => hlt, fun _ => rfl⟩⟩
    · constructor
      · intro hcon; exact hcon.elim
      · intro hge; linarith
    · constructor
      · intro hcon; exact hcon.elim
      · rintro ⟨hge, -⟩; linarith

/-- Claim C6: in both engine configurations (RNN model loaded and RNN model
absent) the scoring weights are each in [0,1] and sum to 1. -/
theorem claim_C6_weight_invariant :
    (ml_loaded_weights.alpha + ml_loaded_weights.beta + ml_loaded_weights.gamma = 1 ∧
     0 ≤ ml_loaded_weights.alpha ∧ ml_loaded_weights.alpha ≤ 1 ∧
     0 ≤ ml_loaded_weights.beta ∧ ml_loaded_weights.beta ≤ 1 ∧
     0 ≤ ml_loaded_weights.gamma ∧ ml_loaded_weights.gamma ≤ 1) ∧
    (ml_absent_weights.alpha + ml_absent_weights.beta + ml_absent_weights.gamma = 1 ∧
     0 ≤ ml_absent_weights.alpha ∧ ml_absent_weights.alpha ≤ 1 ∧
     0 ≤ ml_absent_weights.beta ∧ ml_absent_weights.beta ≤ 1 ∧
     0 ≤ ml_absent_weights.gamma ∧ ml_absent_weights.gamma ≤ 1) := by
  norm_num [ml_loaded_weights, ml_absent_weights]

/-- Claim C4: under the seeded default rules, a transaction of amount 600000
(ordinary merchant, daytime) triggers exactly the `high_amount` rule, giving
rule_score 0.6; with the ML-absent weights and rnn = velocity = 0 the final
score is 0.8 * 0.6 = 0.48 and the decision is APPROVE. -/
theorem claim_C4_high_amount_scenario :
    (get_rule_score high_amount_tx default_fraud_rules).1 = 6/10 ∧
    ((get_rule_score high_amount_tx default_fraud_rules).2.map
        (fun f => f.factor)) = ["high_amount"] ∧
    final_fraud_score ml_absent_weights 0
        (get_rule_score high_amount_tx default_fraud_rules).1 0 = 48/100 ∧
    make_decision (final_fraud_score ml_absent_weights 0
        (get_rule_score high_amount_tx default_fraud_rules).1 0) = .APPROVE := by
  with_unfolding_all decide

/-- A triggering rule contributes exactly its weight. -/
lemma evaluate_rule_snd (tx : Txn) (r : FraudRule)
    (h : (evaluate_rule tx r).1 = true) : (evaluate_rule tx r).2 = r.weight := by
  simp only [evaluate_rule] at h ⊢
  split_ifs at h ⊢ <;> simp_all

/-- The accumulator of the rule-score loop: the total is the starting value
plus the weights of the triggering rules. -/
lemma rule_score_foldl (tx : Txn) (rules : List FraudRule) (a : ℚ)
    (l : List RiskFactor) :
    (rules.foldl (rule_score_step tx) (a, l)).1
      = a + ((rules.filter (fun r => (evaluate_rule tx r).1)).map
          (fun r => r.weight)).sum := by
  induction rules generalizing a l with
  | nil => simp
  | cons r rs ih =>
    simp only [List.foldl_cons, List.filter_cons]
    by_cases h : (evaluate_rule tx r).1 = true
    · rw [show rule_score_step tx (a, l) r
          = (a + (evaluate_rule tx r).2, l ++ [ruleFactor r]) by
            simp [rule_score_step, h]]
      rw [ih, evaluate_rule_snd tx r h, h]
      simp [add_assoc]
    · rw [show rule_score_step tx (a, l) r = (a, l) by
            simp [rule_score_step, h]]
      rw [ih]
      simp [h]

/-- Claim C7: for every transaction and rule set, the engine's rule score is
exactly `min(sum of the weights of the triggered active rules, 1.0)`, and in
particular never exceeds 1. -/
theorem claim_C7_rule_score_clamped (tx : Txn) (db_rules : List FraudRule) :
    (get_rule_score tx db_rules).1 = min (triggered_weight_sum tx db_rules) 1 ∧
    (get_rule_score tx db_rules).1 ≤ 1 := by
  have h := rule_score_foldl tx (db_rules.filter (fun r => r.is_active)) 0 []
  constructor
  · simp only [get_rule_score, triggered_weight_sum]
    rw [h, zero_add]
  · simp only [get_rule_score]
    exact min_le_right _ _

/-- Claim C9: after every profile update the fraud history is the most
recent 10 entries of the previous history extended by the new assessment:
its length is `min(previous + 1, 10)` (so at most 10) and it is a suffix of
the extended history (only oldest entries are dropped). -/
theorem claim_C9_fraud_history_bounded (now : Nat) (amount fraud_score : ℚ)
    (decision : Decision) (profile : RiskProfile) :
    (update_user_profile now amount fraud_score decision profile).fraud_history.length
        = min (profile.fraud_history.length + 1) 10 ∧
    (update_user_profile now amount fraud_score decision profile).fraud_history.length
        ≤ 10 ∧
    (update_user_profile now amount fraud_score decision profile).fraud_history
      <:+ (profile.fraud_history ++
            [{ timestamp := now, fraud_score := fraud_score, decision := decision }]) := by
  refine ⟨?_, ?_, ?_⟩
  · simp only [update_user_profile, lastN, List.length_drop, List.length_append,
      List.length_cons, List.length_nil]
    omega
  · simp only [update_user_profile, lastN, List.length_drop, List.length_append,
      List.length_cons, List.length_nil]
    omega
  · simp only [update_user_profile, lastN]
    exact List.drop_suffix _ _

/-- Claim C10: whenever the mean of the recent amounts is zero, the
amount-divergence contribution is zero; the ratio `current / mean` is only
formed under the source's `avg_recent > 0` guard. -/
theorem claim_C10_mean_zero_no_divergence (recent_transactions : List HistTxn)
    (current_amount : ℚ)
    (h : ((recent_transactions.map (fun t => t.amount)).sum
          / (recent_transactions.length : ℚ)) = 0) :
    analyze_amount_patterns recent_transactions current_amount = 0 := by
  simp only [analyze_amount_patterns, List.length_map]
  split_ifs with h1 h2 h3 <;>
    first
      | rfl
      | (rw [h] at h2; exact absurd h2 (lt_irrefl 0))

/-- Witness for C10 at a concrete two-element history with mean zero. -/
theorem claim_C10_witness :
    ((([⟨0, 0⟩, ⟨0, 1⟩] : List HistTxn).map (fun t => t.amount)).sum
        / (([⟨0, 0⟩, ⟨0, 1⟩] : List HistTxn).length : ℚ)) = 0 ∧
    analyze_amount_patterns [⟨0, 0⟩, ⟨0, 1⟩] 7 = 0 :=
  ⟨by with_unfolding_all rfl,
   claim_C10_mean_zero_no_divergence [⟨0, 0⟩, ⟨0, 1⟩] 7 (by with_unfolding_all rfl)⟩

/-- Claim C3 counterexample: the Flutterwave verification is not
constant-time. Against the same configured hash "zz", the equal-length
received signatures "az" and "za" make the comparison examine 1 and 2
character positions respectively: the scan stops at the first differing
character. -/
theorem claim_C3_counterexample :
    ("az".length = "za".length) ∧
    (verify_webhook_signature (some "zz") (some "key") (some "az")).2 = 1 ∧
    (verify_webhook_signature (some "zz") (some "key") (some "za")).2 = 2 := by
  decide

/-- Claim C3 (amended): the Paystack (HMAC) verification is constant-time —
for a fixed secret and payload, the number of character positions the
comparison examines is the same for any two non-empty received signatures
(it is always the expected digest's length, with no early exit). -/
theorem claim_C3_paystack_constant_time (hmacSha512Hex : String → String → String)
    (key payload : String) (s1 s2 : String)
    (hk : key ≠ "") (h1 : s1 ≠ "") (h2 : s2 ≠ "") :
    (verify_paystack_signature hmacSha512Hex (some key) payload (some s1)).2
      = (verify_paystack_signature hmacSha512Hex (some key) payload (some s2)).2 := by
  simp [verify_paystack_signature, compare_digest, h1, h2, hk]

/-- Witness for the amended C3 at a concrete HMAC function, secret and pair
of signatures. -/
theorem claim_C3_paystack_constant_time_witness :
    ("k" ≠ "") ∧ ("xy" ≠ "") ∧ ("uv" ≠ "") ∧
    (verify_paystack_signature (fun _ _ => "abcd") (some "k") "p" (some "xy")).2
      = (verify_paystack_signature (fun _ _ => "abcd") (some "k") "p" (some "uv")).2 :=
  ⟨by decide, by decide, by decide,
   claim_C3_paystack_constant_time (fun _ _ => "abcd") "k" "p" "xy" "uv"
     (by decide) (by decide) (by decide)⟩

/-- The intake pipeline never touches the users table in any of its
branches. -/
lemma receive_transaction_users (ipParses : String → Bool) (genId : String)
    (analysisOutcome : Except String FraudResult) (tx : TxInput) (db : DBState) :
    (receive_transaction ipParses genId analysisOutcome tx db).2.users = db.users := by
  unfold receive_transaction
  cases hv : validate_transaction ipParses tx with
  | error e => rfl
  | ok v =>
    cases v with
    | valid => rfl
    | invalid msg => rfl

/-- Claim C1: `receive_transaction` performs no user-profile update at all.
In every run the users table (hence every `risk_profile`) is left unchanged,
and in particular a successful submission — shown on a concrete valid
transaction, which is persisted together with its assessment — leaves the
submitting user's `transaction_count`, `avg_amount`, `fraud_history`,
`risk_level` and `last_transaction` untouched: the pipeline never invokes
`update_user_profile`. -/
theorem claim_C1_intake_never_updates_profile :
    (∀ (ipParses : String → Bool) (genId : String)
        (analysisOutcome : Except String FraudResult) (tx : TxInput) (db : DBState),
      (receive_transaction ipParses genId analysisOutcome tx db).2.users = db.users) ∧
    (receive_transaction isValidIPv4 "TXN_GEN" (.ok ok_result) sample_valid_tx
        sample_db).1.isSuccess = true ∧
    (receive_transaction isValidIPv4 "TXN_GEN" (.ok ok_result) sample_valid_tx
        sample_db).2.transactions.length = 1 ∧
    (receive_transaction isValidIPv4 "TXN_GEN" (.ok ok_result) sample_valid_tx
        sample_db).2.assessments.length = 1 ∧
    (receive_transaction isValidIPv4 "TXN_GEN" (.ok ok_result) sample_valid_tx
        sample_db).2.users = sample_db.users := by
  refine ⟨receive_transaction_users, ?_, ?_, ?_, ?_⟩ <;> with_unfolding_all decide

/-- Claim C2: submitting an otherwise valid transaction with the unparseable
`ip_address` "not-an-ip" does not produce the concatenated validation error:
`ipaddress.ip_address` raises a `ValueError` that the
`except AddressValueError` handler does not catch, so the exception escapes
`validate_transaction`, the blanket handler of `receive_transaction` reports
the raw exception text, nothing is persisted, and the message is not the
validation reason "Invalid IP address format". -/
theorem claim_C2_invalid_ip_escapes_validation :
    validate_transaction isValidIPv4 bad_ip_tx
      = .error (.valueError "'not-an-ip' does not appear to be an IPv4 or IPv6 address") ∧
    (receive_transaction isValidIPv4 "TXN_GEN" (.ok ok_result) bad_ip_tx sample_db).1
      = .error "'not-an-ip' does not appear to be an IPv4 or IPv6 address" none ∧
    (receive_transaction isValidIPv4 "TXN_GEN" (.ok ok_result) bad_ip_tx sample_db).2
      = sample_db ∧
    "'not-an-ip' does not appear to be an IPv4 or IPv6 address"
      ≠ "Invalid IP address format" := by
  with_unfolding_all decide

/-- Claim C8: when the scoring analysis raises (outcome `.error e`), the
result returned to the intake is the safe default — decision REVIEW, fraud
score 0.5, confidence 0, exactly the single `analysis_error` risk factor —
and the intake still persists exactly that assessment (model version
"unknown") and returns success. -/
theorem claim_C8_scoring_error_safe_default (e : String) (ipParses : String → Bool)
    (genId : String) (tx : TxInput) (db : DBState)
    (hv : validate_transaction ipParses tx = .ok .valid) :
    (analyze_caught (some (prepare_transaction genId tx).transaction_id)
        (.error e)).decision = .REVIEW ∧
    (analyze_caught (some (prepare_transaction genId tx).transaction_id)
        (.error e)).fraud_score = 1/2 ∧
    (analyze_caught (some (prepare_transaction genId tx).transaction_id)
        (.error e)).confidence_level = 0 ∧
    (analyze_caught (some (prepare_transaction genId tx).transaction_id)
        (.error e)).risk_factors
      = [{ factor := "analysis_error", weight := 1/2, triggered := true }] ∧
    (receive_transaction ipParses genId (.error e) tx db).1.isSuccess = true ∧
    (receive_transaction ipParses genId (.error e) tx db).2.assessments
      = db.assessments ++
        [{ assessment_id := db.assessments.length + 1,
           transaction_id := (prepare_transaction genId tx).transaction_id,
           fraud_score := 1/2,
           risk_factors := [{ factor := "analysis_error", weight := 1/2,
                              triggered := true }],
           model_version := "unknown",
           decision := .REVIEW,
           confidence_level := 0 }] := by
  refine ⟨rfl, rfl, rfl, rfl, ?_, ?_⟩ <;>
    simp [receive_transaction, hv, analyze_caught, analysisErrorFactor,
      update_status_in_db, SubmitResponse.isSuccess]

/-- Witness for C8 on a concrete valid transaction and store. -/
theorem claim_C8_witness :
    validate_transaction isValidIPv4 sample_valid_tx = .ok .valid ∧
    ((analyze_caught (some (prepare_transaction "TXN_GEN" sample_valid_tx).transaction_id)
        (.error "boom")).decision = .REVIEW ∧
     (analyze_caught (some (prepare_transaction "TXN_GEN" sample_valid_tx).transaction_id)
        (.error "boom")).fraud_score = 1/2 ∧
     (analyze_caught (some (prepare_transaction "TXN_GEN" sample_valid_tx).transaction_id)
        (.error "boom")).confidence_level = 0 ∧
     (analyze_caught (some (prepare_transaction "TXN_GEN" sample_valid_tx).transaction_id)
        (.error "boom")).risk_factors
       = [{ factor := "analysis_error", weight := 1/2, triggered := true }] ∧
     (receive_transaction isValidIPv4 "TXN_GEN" (.error "boom") sample_valid_tx
        sample_db).1.isSuccess = true ∧
     (receive_transaction isValidIPv4 "TXN_GEN" (.error "boom") sample_valid_tx
        sample_db).2.assessments
       = sample_db.assessments ++
         [{ assessment_id := sample_db.assessments.length + 1,
            transaction_id := (prepare_transaction "TXN_GEN" sample_valid_tx).transaction_id,
            fraud_score := 1/2,
            risk_factors := [{ factor := "analysis_error", weight := 1/2,
                               triggered := true }],
            model_version := "unknown",
            decision := .REVIEW,
            confidence_level := 0 }]) :=
  ⟨by with_unfolding_all decide,
   claim_C8_scoring_error_safe_default "boom" isValidIPv4 "TXN_GEN" sample_valid_tx
     sample_db (by with_unfolding_all decide)⟩

end FDS
